import Mathlib

/-!
Verification of the environmental-awareness governance control plane.

This file gives a shallow embedding of the core components of the
repository (metric aggregation, the tiered risk-escalation state machine,
the stress forecaster, the stability feedback loop, the pre-execution
validator and the scoped state API) and proves the specified properties
about them.

Modelling conventions:
  - JavaScript numbers are modelled as rationals.
  - The open-ended indicator mapping of a snapshot is modelled as a
    function from indicator names to optional rationals, where a missing,
    null or non-numeric entry is mapped to none.
  - JavaScript comparisons against an undefined operand evaluate to
    false (NaN semantics); the js-prefixed helpers capture this.
-/

set_option maxHeartbeats 1000000

abbrev Indicator := String

/-- Open-ended numeric indicator mapping of a snapshot.  A key that is
absent, null or bound to a non-numeric value is mapped to none. -/
abbrev Metrics := Indicator → Option ℚ

/-- JavaScript comparison v >= c: false when v is undefined. -/
def jsGe (v : Option ℚ) (c : ℚ) : Bool :=
  match v with
  | some q => decide (c ≤ q)
  | none => false

/-- JavaScript comparison v <= c: false when v is undefined. -/
def jsLe (v : Option ℚ) (c : ℚ) : Bool :=
  match v with
  | some q => decide (q ≤ c)
  | none => false

/-- JavaScript comparison v > c: false when v is undefined. -/
def jsGt (v : Option ℚ) (c : ℚ) : Bool :=
  match v with
  | some q => decide (c < q)
  | none => false

/-- JavaScript comparison v < c: false when v is undefined. -/
def jsLt (v : Option ℚ) (c : ℚ) : Bool :=
  match v with
  | some q => decide (q < c)
  | none => false

/-- Builds the metrics mapping of a snapshot from the eight core
indicators (mirrors the SystemMetrics record with no extra keys). -/
def mkMetrics (treasury budgetUtil risk compute viol coop density stress : ℚ) :
    Metrics := fun k =>
  if k = "totalTreasuryReserves" then some treasury
  else if k = "pooledBudgetUtilization" then some budgetUtil
  else if k = "aggregateAgentRiskExposure" then some risk
  else if k = "networkComputeLoad" then some compute
  else if k = "policyViolationFrequency" then some viol
  else if k = "cooperativeEfficiencyScores" then some coop
  else if k = "ongoingTaskDensity" then some density
  else if k = "predictiveStressLevel" then some stress
  else none

theorem jsGe_some (q c : ℚ) : jsGe (some q) c = decide (c ≤ q) := rfl

theorem jsGe_none (c : ℚ) : jsGe none c = false := rfl

theorem jsLe_some (q c : ℚ) : jsLe (some q) c = decide (q ≤ c) := rfl

theorem jsLe_none (c : ℚ) : jsLe none c = false := rfl

theorem jsGt_some (q c : ℚ) : jsGt (some q) c = decide (c < q) := rfl

theorem jsGt_none (c : ℚ) : jsGt none c = false := rfl

theorem jsLt_some (q c : ℚ) : jsLt (some q) c = decide (q < c) := rfl

theorem jsLt_none (c : ℚ) : jsLt none c = false := rfl

theorem mkMetrics_treasury (a b c d e f g h : ℚ) :
    mkMetrics a b c d e f g h "totalTreasuryReserves" = some a := rfl

theorem mkMetrics_budgetUtil (a b c d e f g h : ℚ) :
    mkMetrics a b c d e f g h "pooledBudgetUtilization" = some b := rfl

theorem mkMetrics_risk (a b c d e f g h : ℚ) :
    mkMetrics a b c d e f g h "aggregateAgentRiskExposure" = some c := rfl

theorem mkMetrics_compute (a b c d e f g h : ℚ) :
    mkMetrics a b c d e f g h "networkComputeLoad" = some d := rfl

theorem mkMetrics_viol (a b c d e f g h : ℚ) :
    mkMetrics a b c d e f g h "policyViolationFrequency" = some e := rfl

theorem mkMetrics_coop (a b c d e f g h : ℚ) :
    mkMetrics a b c d e f g h "cooperativeEfficiencyScores" = some f := rfl

theorem mkMetrics_density (a b c d e f g h : ℚ) :
    mkMetrics a b c d e f g h "ongoingTaskDensity" = some g := rfl

theorem mkMetrics_stress (a b c d e f g h : ℚ) :
    mkMetrics a b c d e f g h "predictiveStressLevel" = some h := rfl

/-- EscalationTier enum of the source: STABLE=0, ELEVATED=1, HIGH=2,
CRITICAL=3. -/
inductive EscalationTier
  | STABLE
  | ELEVATED
  | HIGH
  | CRITICAL
deriving DecidableEq, Repr

/-- Numeric value of the tier, as in the TypeScript enum. -/
def EscalationTier.toNat : EscalationTier → Nat
  | .STABLE => 0
  | .ELEVATED => 1
  | .HIGH => 2
  | .CRITICAL => 3

instance : LE EscalationTier := ⟨fun a b => a.toNat ≤ b.toNat⟩
instance : LT EscalationTier := ⟨fun a b => a.toNat < b.toNat⟩
instance (a b : EscalationTier) : Decidable (a ≤ b) :=
  inferInstanceAs (Decidable (a.toNat ≤ b.toNat))
instance (a b : EscalationTier) : Decidable (a < b) :=
  inferInstanceAs (Decidable (a.toNat < b.toNat))

/-- Trigger quadruple of one escalation tier (THRESHOLDS entries). -/
structure TierThresholds where
  riskExposure : ℚ
  violationFrequency : ℚ
  treasuryMin : ℚ
  computeLoad : ℚ
deriving DecidableEq, Repr

/-- The mutable THRESHOLDS record of RiskEscalationModule. -/
structure EscalationThresholds where
  CRITICAL : TierThresholds
  HIGH : TierThresholds
  ELEVATED : TierThresholds
deriving DecidableEq, Repr

/-- Default THRESHOLDS of RiskEscalationModule. -/
def defaultThresholds : EscalationThresholds where
  CRITICAL := ⟨5000, 0.3, 500000, 0.95⟩
  HIGH := ⟨3000, 0.15, 1500000, 0.85⟩
  ELEVATED := ⟨1500, 0.05, 3000000, 0.70⟩

/-- OR-combined trigger condition of one tier against a snapshot, as in
evaluateRisk: risk-exposure at or above the ceiling, or violation
frequency at or above the ceiling, or treasury at or below the floor, or
compute load at or above the ceiling. -/
def tierExceeded (t : TierThresholds) (m : Metrics) : Bool :=
  jsGe (m "aggregateAgentRiskExposure") t.riskExposure ||
  jsGe (m "policyViolationFrequency") t.violationFrequency ||
  jsLe (m "totalTreasuryReserves") t.treasuryMin ||
  jsGe (m "networkComputeLoad") t.computeLoad

/-- Trigger condition of a tier under a threshold set (STABLE has no
condition). -/
def tierCondition (thr : EscalationThresholds) : EscalationTier → Metrics → Bool
  | .STABLE, _ => false
  | .ELEVATED, m => tierExceeded thr.ELEVATED m
  | .HIGH, m => tierExceeded thr.HIGH m
  | .CRITICAL, m => tierExceeded thr.CRITICAL m

/-- Tier computation of RiskEscalationModule.evaluateRisk: CRITICAL is
checked first, then HIGH, then ELEVATED; STABLE when none matches. -/
def evaluateTier (thr : EscalationThresholds) (m : Metrics) : EscalationTier :=
  if tierExceeded thr.CRITICAL m then .CRITICAL
  else if tierExceeded thr.HIGH m then .HIGH
  else if tierExceeded thr.ELEVATED m then .ELEVATED
  else .STABLE

/-- Snapshot of the stressed scenario of the validator demo with
risk-exposure raised to 1800 and the remaining indicators as in the
stable scenario. -/
def stressedMetrics : Metrics :=
  mkMetrics 5000000 0.2 1800 0.3 0.01 95 100 0

/-- Snapshot satisfying the CRITICAL trigger (risk exposure 6000). -/
def criticalMetrics : Metrics :=
  mkMetrics 5000000 0.2 6000 0.3 0.01 95 100 0

/-- C1: evaluateRisk checks the tier conditions top-down in descending
severity, so the resulting tier is the highest tier whose OR-combined
condition holds (STABLE when none does); in particular a snapshot
satisfying the CRITICAL condition is never classified ELEVATED or HIGH. -/
theorem evaluateTier_descending_severity (thr : EscalationThresholds) (m : Metrics) :
    (∀ t, tierCondition thr t m = true → t ≤ evaluateTier thr m) ∧
    (evaluateTier thr m ≠ .STABLE →
      tierCondition thr (evaluateTier thr m) m = true) ∧
    (tierCondition thr .CRITICAL m = true → evaluateTier thr m = .CRITICAL) := by
  unfold evaluateTier
  by_cases hc : tierExceeded thr.CRITICAL m <;>
    by_cases hh : tierExceeded thr.HIGH m <;>
      by_cases he : tierExceeded thr.ELEVATED m <;>
        simp only [hc, hh, he, if_true, if_false, Bool.false_eq_true] <;>
          refine ⟨fun t ht => ?_, ?_, ?_⟩ <;>
            first
              | (cases t <;> first
                  | decide
                  | simp_all [tierCondition])
              | simp_all [tierCondition]

/-- Witness for C1 at the default thresholds and a concrete CRITICAL
snapshot. -/
theorem evaluateTier_descending_severity_witness :
    evaluateTier defaultThresholds criticalMetrics = .CRITICAL :=
  (evaluateTier_descending_severity defaultThresholds criticalMetrics).2.2
    (by decide)

/-- Per-tier policy definition (TIER_DEFINITIONS entry, rationale
omitted). -/
structure TierDefinition where
  tier : EscalationTier
  authorityLimitMultiplier : ℚ
  delegationRightsContractionFactor : ℚ
  budgetCeilingMultiplier : ℚ
  trustGatingMultiplier : ℚ
  validationDepthBonus : ℤ
  multiAgentConfirmationRequired : Bool
deriving DecidableEq, Repr

/-- The mutable TIER_DEFINITIONS record of RiskEscalationModule. -/
structure TierDefinitions where
  stableDef : TierDefinition
  elevatedDef : TierDefinition
  highDef : TierDefinition
  criticalDef : TierDefinition
deriving DecidableEq, Repr

/-- Lookup of a tier definition. -/
def TierDefinitions.get (d : TierDefinitions) : EscalationTier → TierDefinition
  | .STABLE => d.stableDef
  | .ELEVATED => d.elevatedDef
  | .HIGH => d.highDef
  | .CRITICAL => d.criticalDef

/-- Default TIER_DEFINITIONS of RiskEscalationModule. -/
def defaultTierDefinitions : TierDefinitions where
  stableDef := ⟨.STABLE, 1.0, 1.0, 1.0, 1.0, 0, false⟩
  elevatedDef := ⟨.ELEVATED, 0.75, 0.80, 0.85, 1.1, 1, false⟩
  highDef := ⟨.HIGH, 0.40, 0.50, 0.50, 1.5, 3, true⟩
  criticalDef := ⟨.CRITICAL, 0.10, 0.20, 0.20, 2.5, 6, true⟩

/-- Full policy of a tier (RiskEscalationPolicy = tier definition plus
rationale text). -/
structure RiskEscalationPolicy where
  tier : EscalationTier
  authorityLimitMultiplier : ℚ
  delegationRightsContractionFactor : ℚ
  budgetCeilingMultiplier : ℚ
  trustGatingMultiplier : ℚ
  validationDepthBonus : ℤ
  multiAgentConfirmationRequired : Bool
  rationale : String
deriving DecidableEq, Repr

/-- Mirror of RiskEscalationModule.createPolicy: spreads the tier
definition and attaches the rationale. -/
def createPolicy (defs : TierDefinitions) (tier : EscalationTier)
    (rationale : String) : RiskEscalationPolicy :=
  let d := defs.get tier
  ⟨d.tier, d.authorityLimitMultiplier, d.delegationRightsContractionFactor,
   d.budgetCeilingMultiplier, d.trustGatingMultiplier, d.validationDepthBonus,
   d.multiAgentConfirmationRequired, rationale⟩

/-- Rationale text chosen alongside the new tier in evaluateRisk. -/
def tierReason : EscalationTier → String
  | .STABLE => "System is operating within normal parameters."
  | .ELEVATED => "ELEVATED: Preemptive risk mitigation active. Authority limits tightened."
  | .HIGH => "HIGH: Significant system stress detected. Multi-agent confirmation activated."
  | .CRITICAL => "CRITICAL: Massive risk detected. Immediate emergency restrictions applied."

/-- Mutable state of RiskEscalationModule. -/
structure EscalationState where
  thresholds : EscalationThresholds
  tierDefs : TierDefinitions
  currentTier : EscalationTier
  activePolicy : RiskEscalationPolicy
deriving DecidableEq, Repr

/-- Initial state of RiskEscalationModule as set up by its constructor. -/
def initialEscalationState : EscalationState where
  thresholds := defaultThresholds
  tierDefs := defaultTierDefinitions
  currentTier := .STABLE
  activePolicy :=
    createPolicy defaultTierDefinitions .STABLE "System initialized in STABLE mode."

/-- Payload of a tierChanged event. -/
structure TierChangedEvent where
  policy : RiskEscalationPolicy
  previousTier : EscalationTier
deriving DecidableEq, Repr

/-- One evaluateRisk pass over a snapshot: computes the new tier and, only
when it differs from the current tier, replaces the active policy and
emits a tierChanged event. -/
def evaluateRiskStep (s : EscalationState) (m : Metrics) :
    EscalationState × Option TierChangedEvent :=
  let newTier := evaluateTier s.thresholds m
  if newTier ≠ s.currentTier then
    let pol := createPolicy s.tierDefs newTier (tierReason newTier)
    ({ s with currentTier := newTier, activePolicy := pol },
     some ⟨pol, s.currentTier⟩)
  else
    (s, none)

/-- Final module state after a sequence of snapshot evaluations. -/
def runEscalation (s : EscalationState) : List Metrics → EscalationState
  | [] => s
  | m :: ms => runEscalation (evaluateRiskStep s m).1 ms

/-- The tierChanged events emitted over a sequence of snapshot
evaluations, in order. -/
def escalationEvents (s : EscalationState) : List Metrics → List TierChangedEvent
  | [] => []
  | m :: ms =>
    match (evaluateRiskStep s m).2 with
    | some e => e :: escalationEvents (evaluateRiskStep s m).1 ms
    | none => escalationEvents (evaluateRiskStep s m).1 ms

theorem evaluateRiskStep_thresholds (s : EscalationState) (m : Metrics) :
    (evaluateRiskStep s m).1.thresholds = s.thresholds := by
  unfold evaluateRiskStep
  by_cases h : evaluateTier s.thresholds m = s.currentTier <;> simp [h]

theorem evaluateRiskStep_currentTier (s : EscalationState) (m : Metrics) :
    (evaluateRiskStep s m).1.currentTier = evaluateTier s.thresholds m := by
  unfold evaluateRiskStep
  by_cases h : evaluateTier s.thresholds m = s.currentTier <;> simp [h]

theorem escalationEvents_same_tier (s : EscalationState) (ms : List Metrics)
    (h : ∀ m ∈ ms, evaluateTier s.thresholds m = s.currentTier) :
    escalationEvents s ms = [] := by
  induction ms with
  | nil => rfl
  | cons m ms ih =>
    have hm := h m (List.mem_cons_self m ms)
    have hstep : evaluateRiskStep s m = (s, none) := by
      unfold evaluateRiskStep
      simp [hm]
    unfold escalationEvents
    rw [hstep]
    exact ih fun x hx => h x (List.mem_cons_of_mem m hx)

/-- C2: a tierChanged event is emitted, and the active policy replaced,
exactly when the newly computed tier differs from the current tier; and
over any non-empty run of snapshots that all evaluate to one tier T
different from the starting tier, exactly one event is emitted. -/
theorem tierChanged_iff_tier_differs (s : EscalationState) (ms : List Metrics)
    (T : EscalationTier) :
    (∀ m, ((evaluateRiskStep s m).2.isSome ↔
        evaluateTier s.thresholds m ≠ s.currentTier) ∧
      (evaluateRiskStep s m).1.activePolicy =
        (if evaluateTier s.thresholds m ≠ s.currentTier then
          createPolicy s.tierDefs (evaluateTier s.thresholds m)
            (tierReason (evaluateTier s.thresholds m))
        else s.activePolicy)) ∧
    (ms ≠ [] → (∀ m ∈ ms, evaluateTier s.thresholds m = T) →
      T ≠ s.currentTier → (escalationEvents s ms).length = 1) := by
  constructor
  · intro m
    constructor
    · unfold evaluateRiskStep
      by_cases h : evaluateTier s.thresholds m = s.currentTier <;> simp [h]
    · unfold evaluateRiskStep
      by_cases h : evaluateTier s.thresholds m = s.currentTier <;> simp [h]
  · intro hne hall hT
    match ms, hne with
    | m :: ms, _ =>
      have hm : evaluateTier s.thresholds m = T := hall m (List.mem_cons_self m ms)
      have hstep : (evaluateRiskStep s m).2 =
          some ⟨createPolicy s.tierDefs T (tierReason T), s.currentTier⟩ := by
        unfold evaluateRiskStep
        rw [hm]
        simp [hT]
      have hrest : escalationEvents (evaluateRiskStep s m).1 ms = [] := by
        apply escalationEvents_same_tier
        intro x hx
        rw [evaluateRiskStep_thresholds, evaluateRiskStep_currentTier, hm]
        exact hall x (List.mem_cons_of_mem m hx)
      unfold escalationEvents
      rw [hstep, hrest]
      rfl

/-- Snapshot above the ELEVATED risk-exposure threshold and below all
HIGH and CRITICAL triggers. -/
def elevatedMetrics : Metrics :=
  mkMetrics 5000000 0.2 1600 0.3 0.01 95 100 0

/-- Witness for C2: ten identical snapshots above the ELEVATED threshold,
fed to a module starting in STABLE, produce exactly one tierChanged
event. -/
theorem tierChanged_iff_tier_differs_witness :
    (escalationEvents initialEscalationState
      (List.replicate 10 elevatedMetrics)).length = 1 :=
  (tierChanged_iff_tier_differs initialEscalationState
      (List.replicate 10 elevatedMetrics) .ELEVATED).2
    (by simp)
    (by
      intro m hm
      rw [List.eq_of_mem_replicate hm]
      norm_num [initialEscalationState, defaultThresholds, evaluateTier,
        tierExceeded, elevatedMetrics, mkMetrics_risk, mkMetrics_viol,
        mkMetrics_treasury, mkMetrics_compute, jsGe_some, jsLe_some])
    (by decide)

/-- Raw result of querying one provider in a collection cycle.  An entry
whose value is none models a null, undefined or non-numeric report for
that indicator (such entries contribute nothing). -/
structure ProviderReport where
  name : String
  metrics : List (Indicator × Option ℚ)

/-- Values contributed for one indicator, in registration order of the
providers (mirrors the contributions record built by normalize). -/
def contributionsFor (results : List ProviderReport) (key : Indicator) : List ℚ :=
  results.flatMap fun r =>
    r.metrics.filterMap fun kv => if kv.1 = key then kv.2 else none

/-- Arithmetic mean of a list of values. -/
def mean (vs : List ℚ) : ℚ := vs.sum / vs.length

/-- Maximum of the reported values (Math.max over a non-empty spread). -/
def listMax : List ℚ → ℚ
  | [] => 0
  | v :: vs => vs.foldl max v

/-- Clamp between a lower and an upper bound, as Math.min(Math.max(v,lo),hi). -/
def clampQ (lo hi x : ℚ) : ℚ := min (max x lo) hi

/-- Per-indicator standardization rule of StateAggregationEngine.normalize. -/
def normalizeValue (key : Indicator) (values : List ℚ) : ℚ :=
  if key = "aggregateAgentRiskExposure" then listMax values
  else if key = "totalTreasuryReserves" then values.headD 0
  else if key = "pooledBudgetUtilization" ∨ key = "networkComputeLoad" then
    clampQ 0 1 (mean values)
  else if key = "cooperativeEfficiencyScores" then clampQ 0 100 (mean values)
  else mean values

/-- Merged partial update produced by StateAggregationEngine.normalize: an
indicator is present exactly when some provider contributed a numeric
value for it. -/
def normalizeMetrics (results : List ProviderReport) : Indicator → Option ℚ := fun key =>
  match contributionsFor results key with
  | [] => none
  | v :: vs => some (normalizeValue key (v :: vs))

/-- Metric state after one collection cycle: the merged partial update is
spread over the previous metrics, so indicators absent this cycle retain
their previous value. -/
def collectMetrics (prev : Metrics) (results : List ProviderReport) : Metrics :=
  fun key =>
    match normalizeMetrics results key with
    | some v => some v
    | none => prev key

theorem foldl_max_mem (vs : List ℚ) : ∀ v : ℚ, vs.foldl max v ∈ v :: vs := by
  induction vs with
  | nil => intro v; simp
  | cons x xs ih =>
    intro v
    have h := ih (max v x)
    rcases List.mem_cons.1 h with h1 | h1
    · rcases max_choice v x with hm | hm <;> rw [List.foldl_cons, h1, hm] <;> simp
    · simp [List.foldl_cons, List.mem_cons.2 (Or.inr (List.mem_cons.2 (Or.inr h1)))]

theorem init_le_foldl_max (vs : List ℚ) : ∀ v : ℚ, v ≤ vs.foldl max v := by
  induction vs with
  | nil => intro v; simp
  | cons x xs ih =>
    intro v
    exact le_trans (le_max_left v x) (ih (max v x))

theorem le_foldl_max (vs : List ℚ) : ∀ v w : ℚ, w ∈ v :: vs → w ≤ vs.foldl max v := by
  induction vs with
  | nil => intro v w hw; simp at hw; simp [hw]
  | cons x xs ih =>
    intro v w hw
    rw [List.foldl_cons]
    rcases List.mem_cons.1 hw with h1 | h1
    · subst h1
      exact le_trans (le_max_left w x) (init_le_foldl_max xs (max w x))
    · rcases List.mem_cons.1 h1 with h2 | h2
      · subst h2
        exact le_trans (le_max_right v w) (init_le_foldl_max xs (max v w))
      · exact ih (max v x) w (List.mem_cons.2 (Or.inr h2))

/-- C3: per-indicator reduction rules of a collection cycle.  Risk
exposure merges as the maximum of the contributing values, treasury as
the first reporting value (registration order), budget utilization and
compute load as the mean clamped to the unit interval, cooperative
efficiency as the mean clamped to 0..100, every other indicator as the
unclamped mean; an indicator with no numeric contribution this cycle
retains its previous value. -/
theorem collectMetrics_reduction_rules (results : List ProviderReport) (prev : Metrics) :
    (∀ key, contributionsFor results key = [] →
      collectMetrics prev results key = prev key) ∧
    (contributionsFor results "aggregateAgentRiskExposure" ≠ [] →
      ∃ v, collectMetrics prev results "aggregateAgentRiskExposure" = some v ∧
        v ∈ contributionsFor results "aggregateAgentRiskExposure" ∧
        ∀ w ∈ contributionsFor results "aggregateAgentRiskExposure", w ≤ v) ∧
    (∀ v vs, contributionsFor results "totalTreasuryReserves" = v :: vs →
      collectMetrics prev results "totalTreasuryReserves" = some v) ∧
    (∀ key, (key = "pooledBudgetUtilization" ∨ key = "networkComputeLoad") →
      contributionsFor results key ≠ [] →
      collectMetrics prev results key =
        some (min (max (mean (contributionsFor results key)) 0) 1)) ∧
    (contributionsFor results "cooperativeEfficiencyScores" ≠ [] →
      collectMetrics prev results "cooperativeEfficiencyScores" =
        some (min (max (mean (contributionsFor results "cooperativeEfficiencyScores")) 0) 100)) ∧
    (∀ key, key ≠ "aggregateAgentRiskExposure" → key ≠ "totalTreasuryReserves" →
      key ≠ "pooledBudgetUtilization" → key ≠ "networkComputeLoad" →
      key ≠ "cooperativeEfficiencyScores" →
      contributionsFor results key ≠ [] →
      collectMetrics prev results key = some (mean (contributionsFor results key))) := by
  refine ⟨?_, ?_, ?_, ?_, ?_, ?_⟩
  · intro key h
    simp [collectMetrics, normalizeMetrics, h]
  · intro h
    rcases hc : contributionsFor results "aggregateAgentRiskExposure" with _ | ⟨v, vs⟩
    · exact absurd hc h
    · refine ⟨listMax (v :: vs), ?_, ?_, ?_⟩
      · simp [collectMetrics, normalizeMetrics, hc, normalizeValue]
      · simpa [listMax] using foldl_max_mem vs v
      · intro w hw
        simpa [listMax] using le_foldl_max vs v w hw
  · intro v vs hc
    simp [collectMetrics, normalizeMetrics, hc, normalizeValue]
  · intro key hkey hne
    rcases hc : contributionsFor results key with _ | ⟨v, vs⟩
    · exact absurd hc hne
    · rcases hkey with h | h <;> subst h <;>
        simp [collectMetrics, normalizeMetrics, hc, normalizeValue, clampQ]
  · intro hne
    rcases hc : contributionsFor results "cooperativeEfficiencyScores" with _ | ⟨v, vs⟩
    · exact absurd hc hne
    · simp [collectMetrics, normalizeMetrics, hc, normalizeValue, clampQ]
  · intro key h1 h2 h3 h4 h5 hne
    rcases hc : contributionsFor results key with _ | ⟨v, vs⟩
    · exact absurd hc hne
    · simp [collectMetrics, normalizeMetrics, hc, normalizeValue, h1, h2, h3, h4, h5]

/-- Two concrete provider reports: both report treasury and risk
exposure, the first also reports a non-numeric custom signal. -/
def reportsW : List ProviderReport :=
  [⟨"EconomicProvider",
     [("totalTreasuryReserves", some 3000000),
      ("aggregateAgentRiskExposure", some 500),
      ("customSignal", none)]⟩,
   ⟨"RiskProvider",
     [("totalTreasuryReserves", some 4000000),
      ("aggregateAgentRiskExposure", some 900)]⟩]

/-- Previous-cycle metrics used by the C3 witness. -/
def prevMetricsW : Metrics := mkMetrics 1000000 1 100 1 1 90 50 0

/-- Witness for C3: with two sources reporting treasury, the merged
treasury value is the first reporting source's value. -/
theorem collectMetrics_reduction_rules_witness :
    collectMetrics prevMetricsW reportsW "totalTreasuryReserves" = some 3000000 :=
  (collectMetrics_reduction_rules reportsW prevMetricsW).2.2.1 3000000 [4000000]
    (by decide)

/-- Constructor argument of GlobalSystemState.  Optional fields model the
optional properties of GlobalSystemStateData. -/
structure GlobalStateData where
  id : Option String
  timestamp : Option Nat
  metrics : Metrics
  metadata : Option (List (String × String))
  version : Option String

/-- JavaScript or-fallback for a string field: undefined and the empty
string are falsy. -/
def jsOrString (v : Option String) (fallback : String) : String :=
  match v with
  | some s => if s = "" then fallback else s
  | none => fallback

/-- JavaScript or-fallback for a numeric field: undefined and 0 are
falsy. -/
def jsOrNat (v : Option Nat) (fallback : Nat) : Nat :=
  match v with
  | some n => if n = 0 then fallback else n
  | none => fallback

/-- Immutable snapshot value (GlobalSystemState). -/
structure GlobalSystemState where
  id : String
  timestamp : Nat
  version : String
  metrics : Metrics
  metadata : List (String × String)

/-- Constructor of GlobalSystemState.  The freshId and now arguments model
the generated state id and Date.now() used for the fallback values. -/
def mkGlobalSystemState (freshId : String) (now : Nat) (d : GlobalStateData) :
    GlobalSystemState where
  id := jsOrString d.id freshId
  timestamp := jsOrNat d.timestamp now
  version := jsOrString d.version "1.0.0"
  metrics := fun k => d.metrics k
  metadata := d.metadata.getD []

/-- The static snapshot factory of GlobalSystemState. -/
def GlobalSystemState.snapshot (freshId : String) (now : Nat) (metrics : Metrics)
    (metadata : Option (List (String × String))) : GlobalSystemState :=
  mkGlobalSystemState freshId now ⟨none, none, metrics, metadata, none⟩

/-- GlobalSystemState.updateMetric: re-runs the constructor on a spread of
the receiver with one metrics entry added or replaced. -/
def GlobalSystemState.updateMetric (s : GlobalSystemState) (freshId : String)
    (now : Nat) (name : String) (value : ℚ) : GlobalSystemState :=
  mkGlobalSystemState freshId now
    ⟨some s.id, some s.timestamp,
     fun k => if k = name then some value else s.metrics k,
     some s.metadata, some s.version⟩

/-- Every snapshot built by the constructor has a truthy id, timestamp and
version, provided the generated id is non-empty and the clock is
positive (generated ids start with the state prefix and Date.now() is a
positive epoch count, so this holds for every snapshot of a run). -/
theorem mkGlobalSystemState_truthy (freshId : String) (now : Nat)
    (d : GlobalStateData) (hfresh : freshId ≠ "") (hnow : now ≠ 0) :
    (mkGlobalSystemState freshId now d).id ≠ "" ∧
    (mkGlobalSystemState freshId now d).timestamp ≠ 0 ∧
    (mkGlobalSystemState freshId now d).version ≠ "" := by
  refine ⟨?_, ?_, ?_⟩ <;>
    simp only [mkGlobalSystemState, jsOrString, jsOrNat]
  · rcases d.id with _ | s
    · exact hfresh
    · by_cases h : s = "" <;> simp [h, hfresh]
  · rcases d.timestamp with _ | n
    · exact hnow
    · by_cases h : n = 0 <;> simp [h, hnow]
  · rcases d.version with _ | s
    · simp
    · by_cases h : s = "" <;> simp [h]

/-- C9: updating a present metric with its current value returns a
snapshot equal to the receiver in every observable field, and for any
name and value the result differs from the receiver at most in the
metrics entry for that name (the receiver itself, being a pure value, is
never modified).  The truthiness hypotheses hold for every snapshot
produced by the constructor (mkGlobalSystemState_truthy). -/
theorem updateMetric_observable_identity (s : GlobalSystemState) (freshId : String)
    (now : Nat) (name : String) (value : ℚ)
    (hid : s.id ≠ "") (hts : s.timestamp ≠ 0) (hver : s.version ≠ "") :
    (s.metrics name = some value → s.updateMetric freshId now name value = s) ∧
    ((s.updateMetric freshId now name value).id = s.id ∧
     (s.updateMetric freshId now name value).timestamp = s.timestamp ∧
     (s.updateMetric freshId now name value).version = s.version ∧
     (s.updateMetric freshId now name value).metadata = s.metadata ∧
     (s.updateMetric freshId now name value).metrics name = some value ∧
     ∀ k, k ≠ name → (s.updateMetric freshId now name value).metrics k = s.metrics k) := by
  obtain ⟨sid, sts, sver, sm, smd⟩ := s
  simp only [GlobalSystemState.updateMetric, mkGlobalSystemState, jsOrString,
    jsOrNat] at *
  constructor
  · intro hsame
    simp only [hid, hts, hver, if_neg, GlobalSystemState.mk.injEq]
    refine ⟨rfl, rfl, rfl, ?_, rfl⟩
    funext k
    by_cases hk : k = name
    · subst hk
      simp [hsame]
    · simp [hk]
  · refine ⟨by simp [hid], by simp [hts], by simp [hver], rfl, by simp, ?_⟩
    intro k hk
    simp [hk]

/-- Concrete snapshot for the C9 witness. -/
def stateW : GlobalSystemState :=
  ⟨"state_w", 5, "1.0.0", mkMetrics 1 1 1 1 1 1 1 1, []⟩

/-- Witness for C9: re-writing the risk indicator of a concrete snapshot
with its current value yields an equal snapshot, and updating treasury
changes exactly that entry. -/
theorem updateMetric_observable_identity_witness :
    stateW.updateMetric "state_w2" 9 "aggregateAgentRiskExposure" 1 = stateW ∧
    (stateW.updateMetric "state_w2" 9 "totalTreasuryReserves" 7).metrics
      "totalTreasuryReserves" = some 7 :=
  ⟨(updateMetric_observable_identity stateW "state_w2" 9
      "aggregateAgentRiskExposure" 1 (by decide) (by decide) (by decide)).1
      (by decide),
   (updateMetric_observable_identity stateW "state_w2" 9
      "totalTreasuryReserves" 7 (by decide) (by decide) (by decide)).2.2.2.2.2.1⟩

/-- System stability label of the macro-awareness triple. -/
inductive SystemStability
  | stable
  | stressed
  | critical
deriving DecidableEq, Repr

/-- Resource pressure label of the macro-awareness triple. -/
inductive ResourcePressure
  | low
  | moderate
  | high
deriving DecidableEq, Repr

/-- Governance strictness label of the macro-awareness triple. -/
inductive GovernanceStrictness
  | standard
  | enhanced
  | emergency
deriving DecidableEq, Repr

/-- Always-visible macro-awareness summary returned by the scoped API. -/
structure MacroAwareness where
  systemStability : SystemStability
  resourcePressure : ResourcePressure
  governanceStrictness : GovernanceStrictness
  escalationTier : EscalationTier
deriving DecidableEq, Repr

/-- GlobalStateAPI.deriveMacroAwareness.  The optional tier argument is
the current tier of the escalation module when that collaborator is
wired; when absent, strictness falls back to the stability/pressure
derivation and the reported tier defaults to STABLE. -/
def deriveMacroAwareness (m : Metrics) (tierOpt : Option EscalationTier) :
    MacroAwareness :=
  let riskLevel := m "aggregateAgentRiskExposure"
  let violationRate := m "policyViolationFrequency"
  let treasury := m "totalTreasuryReserves"
  let stability : SystemStability :=
    if jsGt riskLevel 2000 || jsGt violationRate 0.1 || jsLt treasury 1000000 then
      .critical
    else if jsGt riskLevel 1750 || jsGt violationRate 0.05 || jsLt treasury 2500000 then
      .stressed
    else .stable
  let computeLoad := m "networkComputeLoad"
  let budgetUsage := m "pooledBudgetUtilization"
  let pressure : ResourcePressure :=
    if jsGt computeLoad 0.85 || jsGt budgetUsage 0.9 then .high
    else if jsGt computeLoad 0.6 || jsGt budgetUsage 0.7 then .moderate
    else .low
  match tierOpt with
  | some t =>
    let strictness : GovernanceStrictness :=
      match t with
      | .CRITICAL => .emergency
      | .HIGH => .enhanced
      | .ELEVATED => .enhanced
      | .STABLE => .standard
    ⟨stability, pressure, strictness, t⟩
  | none =>
    let strictness : GovernanceStrictness :=
      if stability = .critical ∨ pressure = .high then .emergency
      else if stability = .stressed ∨ pressure = .moderate then .enhanced
      else .standard
    ⟨stability, pressure, strictness, .STABLE⟩

/-- Scoped view of the snapshot returned to one agent. -/
structure ScopedState where
  id : String
  timestamp : Nat
  metrics : Metrics
  macroAwareness : MacroAwareness
  version : String

/-- GlobalStateAPI.queryState.  The policies argument models the policy
map (none = no registered AccessPolicy for that agent); the filtered
metrics keep a key exactly when it is permitted and defined on the full
snapshot. -/
def queryState (policies : String → Option (List Indicator))
    (full : GlobalSystemState) (tierOpt : Option EscalationTier)
    (agentId : String) : ScopedState :=
  let permittedMetrics := (policies agentId).getD []
  let filteredMetrics : Metrics := fun k =>
    if k ∈ permittedMetrics ∧ (full.metrics k).isSome = true then full.metrics k
    else none
  ⟨full.id, full.timestamp, filteredMetrics,
   deriveMacroAwareness full.metrics tierOpt, full.version⟩

/-- C6: querying state for an agent with no registered AccessPolicy is an
ordinary successful query: the scoped metrics mapping is empty and the
macro-awareness summary equals the one derived from the full snapshot,
independently of any permissions. -/
theorem queryState_unknown_agent (policies : String → Option (List Indicator))
    (full : GlobalSystemState) (tierOpt : Option EscalationTier) (agentId : String)
    (h : policies agentId = none) :
    (queryState policies full tierOpt agentId).metrics = (fun _ => none) ∧
    (queryState policies full tierOpt agentId).macroAwareness =
      deriveMacroAwareness full.metrics tierOpt ∧
    (queryState policies full tierOpt agentId).id = full.id ∧
    (queryState policies full tierOpt agentId).timestamp = full.timestamp ∧
    (queryState policies full tierOpt agentId).version = full.version := by
  refine ⟨?_, rfl, rfl, rfl, rfl⟩
  funext k
  simp [queryState, h]

/-- Witness for C6 at a concrete snapshot and an agent with no policy. -/
theorem queryState_unknown_agent_witness :
    (queryState (fun _ => none) stateW none "agent_x").metrics = (fun _ => none) ∧
    (queryState (fun _ => none) stateW none "agent_x").macroAwareness =
      deriveMacroAwareness stateW.metrics none ∧
    (queryState (fun _ => none) stateW none "agent_x").id = stateW.id ∧
    (queryState (fun _ => none) stateW none "agent_x").timestamp = stateW.timestamp ∧
    (queryState (fun _ => none) stateW none "agent_x").version = stateW.version :=
  queryState_unknown_agent (fun _ => none) stateW none "agent_x" rfl

/-- Caller-supplied projected impact of an action. -/
structure ActionImpact where
  budgetRequired : ℚ
  riskLevel : ℚ
  computeUnits : ℚ
  isDelegationAction : Bool
deriving DecidableEq, Repr

/-- Kinds of violation message pushed by validateAction, in push order
(the source builds interpolated strings; only their kind matters here). -/
inductive Violation
  | economic
  | risk
  | resource
  | delegation
  | trust
  | emergency
  | multiAgent
deriving DecidableEq, Repr

/-- Concrete thresholds reported back by the validator. -/
structure AppliedThresholds where
  budgetLimit : ℚ
  riskLimit : ℚ
  computeLimit : ℚ
  trustThreshold : ℚ
  delegationLimit : ℚ
  strictnessMultiplier : ℚ
  validationDepth : ℤ
  multiAgentRequired : Bool
deriving DecidableEq, Repr

/-- Immutable verdict of the validator. -/
structure ValidationResult where
  approved : Bool
  violations : List Violation
  thresholdsApplied : AppliedThresholds
deriving DecidableEq, Repr

/-- PreExecutionValidator.calculateStrictnessMultiplier. -/
def calculateStrictnessMultiplier : GovernanceStrictness → ℚ
  | .emergency => 0.1
  | .enhanced => 0.5
  | .standard => 1.0

/-- PreExecutionValidator.validateAction.  The escalation argument models
the optional escalation collaborator as its current tier and active
policy; trustScore models the optional trust provider's score for the
agent.  Base thresholds are budget 100000, risk 100, compute 0.1, trust
40, and delegation-risk 100. -/
def validateAction (policies : String → Option (List Indicator))
    (full : GlobalSystemState)
    (escalation : Option (EscalationTier × RiskEscalationPolicy))
    (trustScore : Option ℚ) (agentId : String) (impact : ActionImpact) :
    ValidationResult :=
  let state := queryState policies full (escalation.map Prod.fst) agentId
  let awareness := state.macroAwareness
  let coarse := calculateStrictnessMultiplier awareness.governanceStrictness
  let multiplier : ℚ :=
    match escalation with
    | some (_, policy) => policy.authorityLimitMultiplier
    | none => coarse
  let budgetMultiplier : ℚ :=
    match escalation with
    | some (_, policy) => policy.budgetCeilingMultiplier
    | none => coarse
  let delegationMultiplier : ℚ :=
    match escalation with
    | some (_, policy) => policy.delegationRightsContractionFactor
    | none => 1.0
  let trustMultiplier : ℚ :=
    match escalation with
    | some (_, policy) => policy.trustGatingMultiplier
    | none => 1.0
  let validationDepth : ℤ :=
    match escalation with
    | some (_, policy) => policy.validationDepthBonus
    | none => 0
  let multiAgentRequired : Bool :=
    match escalation with
    | some (_, policy) => policy.multiAgentConfirmationRequired
    | none => false
  let budgetT : ℚ := 100000 * budgetMultiplier
  let riskT : ℚ := 100 * multiplier
  let computeT : ℚ := 0.1 * multiplier
  let trustT : ℚ := 40 * trustMultiplier
  let delegationT : ℚ := 100 * delegationMultiplier
  let v1 : List Violation :=
    if budgetT < impact.budgetRequired then [.economic] else []
  let v2 : List Violation :=
    if riskT < impact.riskLevel then [.risk] else []
  let v3 : List Violation :=
    if computeT < impact.computeUnits then [.resource] else []
  let v4 : List Violation :=
    if impact.isDelegationAction = true ∧ delegationT < impact.riskLevel then
      [.delegation]
    else []
  let v5 : List Violation :=
    match trustScore with
    | some ts => if ts < trustT then [.trust] else []
    | none => []
  let v6 : List Violation :=
    if awareness.governanceStrictness = .emergency ∧ (20 : ℚ) < impact.riskLevel then
      [.emergency]
    else []
  let v7 : List Violation :=
    if multiAgentRequired = true ∧ (10 : ℚ) < impact.riskLevel then
      [.multiAgent]
    else []
  let violations := v1 ++ v2 ++ v3 ++ v4 ++ v5 ++ v6 ++ v7
  ⟨violations.isEmpty, violations,
   ⟨budgetT, riskT, computeT, trustT, delegationT, multiplier, validationDepth,
    multiAgentRequired⟩⟩

/-- Action impact of scenario B: budget 5000, risk 60, compute 0.02. -/
def scenarioBImpact : ActionImpact := ⟨5000, 60, 0.02, false⟩

/-- Scenario B result: validator with no escalation collaborator and no
trust provider, against the stressed snapshot. -/
def scenarioBResult : ValidationResult :=
  validateAction (fun _ => none) ⟨"state_b", 1, "1.0.0", stressedMetrics, []⟩
    none none "agent_01" scenarioBImpact

/-- C5: against the stressed snapshot (risk exposure 1800) the macro
strictness is enhanced, so the applied budget, risk and compute
thresholds are exactly half the base thresholds, and the scenario-B
impact is rejected with the risk-constraint violation as its only
violation. -/
theorem validateAction_scenarioB :
    scenarioBResult.thresholdsApplied.budgetLimit = 100000 / 2 ∧
    scenarioBResult.thresholdsApplied.riskLimit = 100 / 2 ∧
    scenarioBResult.thresholdsApplied.computeLimit = (0.1 : ℚ) / 2 ∧
    scenarioBResult.approved = false ∧
    scenarioBResult.violations = [.risk] := by
  have hmacro :
      deriveMacroAwareness stressedMetrics none =
        ⟨.stressed, .low, .enhanced, .STABLE⟩ := by
    norm_num [deriveMacroAwareness, stressedMetrics, mkMetrics_risk,
      mkMetrics_viol, mkMetrics_treasury, mkMetrics_compute,
      mkMetrics_budgetUtil, jsGt_some, jsLt_some]
    all_goals decide
  refine ⟨?_, ?_, ?_, ?_, ?_⟩
  all_goals norm_num [scenarioBResult, validateAction, queryState, hmacro,
    calculateStrictnessMultiplier, scenarioBImpact]
  all_goals decide

/-- Priority mode of a recommended behavior policy. -/
inductive PriorityMode
  | balanced
  | cooperative
  | competitive
deriving DecidableEq, Repr

/-- Recommended behavior policy produced by AdaptiveBehaviorEngine. -/
structure BehaviorPolicy where
  actionFrequencyMultiplier : ℚ
  priorityMode : PriorityMode
  budgetReallocationFactor : ℚ
  riskToleranceLimit : ℚ
  rationale : String
deriving DecidableEq, Repr

/-- AdaptiveBehaviorEngine.getBehaviorPolicy over the scoped state the
engine queries for the agent.  The rationale strings keep the constant
prefix of the source messages (the interpolated stress percentage is
elided). -/
def getBehaviorPolicy (state : ScopedState) : BehaviorPolicy :=
  let metrics := state.metrics
  let awareness := state.macroAwareness
  let s1 : ℚ × ℚ × List String :=
    match awareness.governanceStrictness with
    | .emergency => (0.2, 20, ["EMERGENCY: Frequency heavily throttled for safety."])
    | .enhanced => (0.6, 60, ["ENHANCED: Frequency scaled back due to system stress."])
    | .standard => (1.0, 100, [])
  let s2 : ℚ × ℚ × List String :=
    match metrics "predictiveStressLevel" with
    | some p =>
      if 0.3 < p then
        let forecastReduction := max 0.3 (1.0 - p)
        if forecastReduction < s1.1 then
          (forecastReduction, (((100 * forecastReduction : ℚ).floor : ℤ) : ℚ),
           s1.2.2 ++ ["FORECAST: Proactive throttling due to rising stress signal."])
        else s1
      else s1
    | none => s1
  let s3 : PriorityMode × List String :=
    match metrics "totalTreasuryReserves" with
    | some t =>
      if t < 1000000 then
        (.cooperative, s2.2.2 ++ ["TREASURY LOW: Ensuring ecosystem stability via cooperation."])
      else if 10000000 < t then
        (.competitive, s2.2.2 ++ ["TREASURY ABUNDANT: Encouraging competitive performance."])
      else (.balanced, s2.2.2)
    | none =>
      if awareness.systemStability = .critical then
        (.cooperative, s2.2.2 ++ ["STABILITY CRITICAL: Defaulting to cooperative mode."])
      else (.balanced, s2.2.2)
  let s4 : ℚ × List String :=
    match metrics "pooledBudgetUtilization", metrics "totalTreasuryReserves" with
    | some bu, some t =>
      if bu < 0.3 ∧ 10000000 < t then
        (1.5, s3.2 ++ ["SURPLUS DETECTED: Scaling budget for high-impact growth tasks."])
      else (1.0, s3.2)
    | _, _ => (1.0, s3.2)
  let rationale :=
    if s4.2 = [] then "System is operating within normal parameters."
    else String.intercalate " " s4.2
  ⟨s2.1, s3.1, s4.1, s2.2.1, rationale⟩

/-- C10: for an agent whose access policy does not permit the treasury
indicator (including agents with no policy at all), the derived behavior
policy never selects competitive mode and never boosts the budget
reallocation factor to 1.5; cooperative mode is selected exactly when the
macro stability label is critical. -/
theorem getBehaviorPolicy_scoped_treasury (policies : String → Option (List Indicator))
    (full : GlobalSystemState) (tierOpt : Option EscalationTier) (agentId : String)
    (h : "totalTreasuryReserves" ∉ (policies agentId).getD []) :
    (getBehaviorPolicy (queryState policies full tierOpt agentId)).priorityMode ≠
      .competitive ∧
    (getBehaviorPolicy (queryState policies full tierOpt agentId)).budgetReallocationFactor ≠
      (1.5 : ℚ) ∧
    ((getBehaviorPolicy (queryState policies full tierOpt agentId)).priorityMode =
        .cooperative ↔
      (queryState policies full tierOpt agentId).macroAwareness.systemStability =
        .critical) := by
  have htre : (queryState policies full tierOpt agentId).metrics
      "totalTreasuryReserves" = none := by
    simp [queryState, h]
  by_cases hcrit : (queryState policies full tierOpt agentId).macroAwareness.systemStability = .critical <;>
    rcases hbu : (queryState policies full tierOpt agentId).metrics
        "pooledBudgetUtilization" with _ | bu <;>
      simp [getBehaviorPolicy, htre, hcrit, hbu] <;> norm_num

/-- Witness for C10: an agent with no registered policy (so no treasury
visibility) over a concrete snapshot. -/
theorem getBehaviorPolicy_scoped_treasury_witness :
    (getBehaviorPolicy (queryState (fun _ => none) stateW none "agent_x")).priorityMode ≠
      .competitive ∧
    (getBehaviorPolicy (queryState (fun _ => none) stateW none "agent_x")).budgetReallocationFactor ≠
      (1.5 : ℚ) ∧
    ((getBehaviorPolicy (queryState (fun _ => none) stateW none "agent_x")).priorityMode =
        .cooperative ↔
      (queryState (fun _ => none) stateW none "agent_x").macroAwareness.systemStability =
        .critical) :=
  getBehaviorPolicy_scoped_treasury (fun _ => none) stateW none "agent_x"
    (by decide)

/-- Partial threshold update accepted by updateThresholds. -/
structure ThresholdPatch where
  riskExposure : Option ℚ
  violationFrequency : Option ℚ
  treasuryMin : Option ℚ
  computeLoad : Option ℚ
deriving DecidableEq, Repr

/-- Spread-merge of a partial threshold update over a tier threshold
quadruple. -/
def TierThresholds.applyPatch (t : TierThresholds) (p : ThresholdPatch) :
    TierThresholds :=
  ⟨p.riskExposure.getD t.riskExposure,
   p.violationFrequency.getD t.violationFrequency,
   p.treasuryMin.getD t.treasuryMin,
   p.computeLoad.getD t.computeLoad⟩

/-- Threshold level key of updateThresholds (STABLE has no thresholds). -/
inductive ThresholdLevel
  | ELEVATED
  | HIGH
  | CRITICAL
deriving DecidableEq, Repr

/-- Lookup of the threshold quadruple at a level key. -/
def thresholdsAt (thr : EscalationThresholds) : ThresholdLevel → TierThresholds
  | .ELEVATED => thr.ELEVATED
  | .HIGH => thr.HIGH
  | .CRITICAL => thr.CRITICAL

/-- RiskEscalationModule.updateThresholds on the module state. -/
def updateThresholds (st : EscalationState) (level : ThresholdLevel)
    (p : ThresholdPatch) : EscalationState :=
  let thr := st.thresholds
  let newThr : EscalationThresholds :=
    match level with
    | .ELEVATED => { thr with ELEVATED := thr.ELEVATED.applyPatch p }
    | .HIGH => { thr with HIGH := thr.HIGH.applyPatch p }
    | .CRITICAL => { thr with CRITICAL := thr.CRITICAL.applyPatch p }
  { st with thresholds := newThr }

/-- Partial tier-definition update accepted by updateTierDefinition. -/
structure TierDefPatch where
  tier : Option EscalationTier
  authorityLimitMultiplier : Option ℚ
  delegationRightsContractionFactor : Option ℚ
  budgetCeilingMultiplier : Option ℚ
  trustGatingMultiplier : Option ℚ
  validationDepthBonus : Option ℤ
  multiAgentConfirmationRequired : Option Bool
deriving DecidableEq, Repr

/-- Spread-merge of a partial tier-definition update. -/
def TierDefinition.applyPatch (d : TierDefinition) (p : TierDefPatch) :
    TierDefinition :=
  ⟨p.tier.getD d.tier,
   p.authorityLimitMultiplier.getD d.authorityLimitMultiplier,
   p.delegationRightsContractionFactor.getD d.delegationRightsContractionFactor,
   p.budgetCeilingMultiplier.getD d.budgetCeilingMultiplier,
   p.trustGatingMultiplier.getD d.trustGatingMultiplier,
   p.validationDepthBonus.getD d.validationDepthBonus,
   p.multiAgentConfirmationRequired.getD d.multiAgentConfirmationRequired⟩

/-- Replacement of one entry of the TIER_DEFINITIONS record. -/
def TierDefinitions.set (defs : TierDefinitions) (tier : EscalationTier)
    (d : TierDefinition) : TierDefinitions :=
  match tier with
  | .STABLE => { defs with stableDef := d }
  | .ELEVATED => { defs with elevatedDef := d }
  | .HIGH => { defs with highDef := d }
  | .CRITICAL => { defs with criticalDef := d }

/-- RiskEscalationModule.updateTierDefinition: merges the patch and, if
the patched tier is currently active, re-derives the active policy with
the rationale preserved. -/
def updateTierDefinition (st : EscalationState) (tier : EscalationTier)
    (p : TierDefPatch) : EscalationState :=
  let newDefs := st.tierDefs.set tier ((st.tierDefs.get tier).applyPatch p)
  let st1 := { st with tierDefs := newDefs }
  if st.currentTier = tier then
    { st1 with activePolicy := createPolicy newDefs tier st.activePolicy.rationale }
  else st1

/-- Threshold level key of a tier, as selected in refineParameters
(null for STABLE). -/
def levelOfTier : EscalationTier → Option ThresholdLevel
  | .STABLE => none
  | .ELEVATED => some .ELEVATED
  | .HIGH => some .HIGH
  | .CRITICAL => some .CRITICAL

/-- An empty tier-definition patch. -/
def emptyDefPatch : TierDefPatch := ⟨none, none, none, none, none, none, none⟩

/-- StabilityFeedbackEngine.refineParameters acting on the escalation
module state through its administrative mutators. -/
def refineParameters (st : EscalationState) (toTier : EscalationTier)
    (successScore : ℚ) : EscalationState :=
  if successScore < 0.5 then
    let st1 :=
      match levelOfTier toTier with
      | some k =>
        updateThresholds st k
          ⟨some (max ((thresholdsAt st.thresholds k).riskExposure * 0.85) 500),
           none, none, none⟩
      | none => st
    let currentDef := st1.tierDefs.get toTier
    updateTierDefinition st1 toTier
      { emptyDefPatch with
        authorityLimitMultiplier :=
          some (max (currentDef.authorityLimitMultiplier * 0.8) 0.05),
        budgetCeilingMultiplier :=
          some (max (currentDef.budgetCeilingMultiplier * 0.8) 0.05) }
  else if 0.9 < successScore then
    let currentDef := st.tierDefs.get toTier
    updateTierDefinition st toTier
      { emptyDefPatch with
        authorityLimitMultiplier :=
          some (min (currentDef.authorityLimitMultiplier * 1.05) 1.0),
        budgetCeilingMultiplier :=
          some (min (currentDef.budgetCeilingMultiplier * 1.05) 1.0) }
  else st

/-- Tail of StabilityFeedbackEngine.performAnalysis: parameters are
refined only when the analyzed transition is an escalation. -/
def applyAnalysisRefinement (st : EscalationState) (fromTier toTier : EscalationTier)
    (successScore : ℚ) : EscalationState :=
  if fromTier < toTier then refineParameters st toTier successScore else st

/-- C4: parameters are retuned only for escalating transitions.  For a
success score below 0.5 the destination tier's risk-exposure threshold
becomes max(0.85 times its current value, 500) and its authority-limit
and budget-ceiling multipliers become max(0.8 times their current
values, 0.05); for a score above 0.9 the multipliers become min(1.05
times their current values, 1.0) and the thresholds are untouched; for a
score between 0.5 and 0.9, and for every non-escalating transition,
nothing changes. -/
theorem refineParameters_rules (st : EscalationState) (f t : EscalationTier)
    (success : ℚ) :
    (¬ f < t → applyAnalysisRefinement st f t success = st) ∧
    (f < t → 1/2 ≤ success → success ≤ 9/10 →
      applyAnalysisRefinement st f t success = st) ∧
    (f < t → success < 1/2 → ∀ k, levelOfTier t = some k →
      thresholdsAt (applyAnalysisRefinement st f t success).thresholds k =
        { thresholdsAt st.thresholds k with
          riskExposure := max ((thresholdsAt st.thresholds k).riskExposure * 0.85) 500 } ∧
      ((applyAnalysisRefinement st f t success).tierDefs.get t).authorityLimitMultiplier =
        max ((st.tierDefs.get t).authorityLimitMultiplier * 0.8) 0.05 ∧
      ((applyAnalysisRefinement st f t success).tierDefs.get t).budgetCeilingMultiplier =
        max ((st.tierDefs.get t).budgetCeilingMultiplier * 0.8) 0.05) ∧
    (f < t → 9/10 < success →
      (applyAnalysisRefinement st f t success).thresholds = st.thresholds ∧
      ((applyAnalysisRefinement st f t success).tierDefs.get t).authorityLimitMultiplier =
        min ((st.tierDefs.get t).authorityLimitMultiplier * 1.05) 1.0 ∧
      ((applyAnalysisRefinement st f t success).tierDefs.get t).budgetCeilingMultiplier =
        min ((st.tierDefs.get t).budgetCeilingMultiplier * 1.05) 1.0) := by
  have h05 : (0.5 : ℚ) = 1 / 2 := by norm_num
  have h09 : (0.9 : ℚ) = 9 / 10 := by norm_num
  refine ⟨?_, ?_, ?_, ?_⟩
  · intro h
    simp [applyAnalysisRefinement, h]
  · intro h h1 h2
    have hn5 : ¬ success < 0.5 := by rw [h05]; exact not_lt.2 h1
    have hn9 : ¬ (0.9 : ℚ) < success := by rw [h09]; exact not_lt.2 h2
    simp [applyAnalysisRefinement, h, refineParameters, hn5, hn9]
  · intro h hlt k hk
    have h5 : success < 0.5 := by rw [h05]; exact hlt
    cases t with
    | STABLE => simp [levelOfTier] at hk
    | ELEVATED =>
      simp only [levelOfTier, Option.some.injEq] at hk
      subst hk
      by_cases hcur : st.currentTier = EscalationTier.ELEVATED <;>
        simp [applyAnalysisRefinement, h, refineParameters, h5, levelOfTier,
          updateThresholds, updateTierDefinition, TierDefinitions.set,
          TierDefinitions.get, TierDefinition.applyPatch,
          TierThresholds.applyPatch, thresholdsAt, emptyDefPatch, hcur]
    | HIGH =>
      simp only [levelOfTier, Option.some.injEq] at hk
      subst hk
      by_cases hcur : st.currentTier = EscalationTier.HIGH <;>
        simp [applyAnalysisRefinement, h, refineParameters, h5, levelOfTier,
          updateThresholds, updateTierDefinition, TierDefinitions.set,
          TierDefinitions.get, TierDefinition.applyPatch,
          TierThresholds.applyPatch, thresholdsAt, emptyDefPatch, hcur]
    | CRITICAL =>
      simp only [levelOfTier, Option.some.injEq] at hk
      subst hk
      by_cases hcur : st.currentTier = EscalationTier.CRITICAL <;>
        simp [applyAnalysisRefinement, h, refineParameters, h5, levelOfTier,
          updateThresholds, updateTierDefinition, TierDefinitions.set,
          TierDefinitions.get, TierDefinition.applyPatch,
          TierThresholds.applyPatch, thresholdsAt, emptyDefPatch, hcur]
  · intro h hgt
    have h9 : (0.9 : ℚ) < success := by rw [h09]; exact hgt
    have hn5 : ¬ success < 0.5 := by
      rw [h05]
      exact not_lt.2 (le_trans (by norm_num) (le_of_lt hgt))
    cases t with
    | STABLE => exact absurd h (by cases f <;> decide)
    | ELEVATED =>
      by_cases hcur : st.currentTier = EscalationTier.ELEVATED <;>
        simp [applyAnalysisRefinement, h, refineParameters, h9, hn5,
          updateTierDefinition, TierDefinitions.set, TierDefinitions.get,
          TierDefinition.applyPatch, emptyDefPatch, hcur]
    | HIGH =>
      by_cases hcur : st.currentTier = EscalationTier.HIGH <;>
        simp [applyAnalysisRefinement, h, refineParameters, h9, hn5,
          updateTierDefinition, TierDefinitions.set, TierDefinitions.get,
          TierDefinition.applyPatch, emptyDefPatch, hcur]
    | CRITICAL =>
      by_cases hcur : st.currentTier = EscalationTier.CRITICAL <;>
        simp [applyAnalysisRefinement, h, refineParameters, h9, hn5,
          updateTierDefinition, TierDefinitions.set, TierDefinitions.get,
          TierDefinition.applyPatch, emptyDefPatch, hcur]

/-- Witness for C4 (scenario C shape): an escalation from STABLE to
ELEVATED with success score 0.4 lowers the ELEVATED risk-exposure
threshold of the default configuration from 1500 to 1275, a reduction of
exactly 15 percent. -/
theorem refineParameters_rules_witness :
    (thresholdsAt
        (applyAnalysisRefinement initialEscalationState .STABLE .ELEVATED
          (2 / 5)).thresholds .ELEVATED).riskExposure = 1275 := by
  have h := (refineParameters_rules initialEscalationState .STABLE .ELEVATED
      (2 / 5)).2.2.1 (by decide) (by norm_num) .ELEVATED rfl
  rw [h.1]
  norm_num [initialEscalationState, defaultThresholds, thresholdsAt, max_def]

/-- Intervention type label of a StabilityAnalysis. -/
inductive InterventionType
  | escalation
  | deEscalation
deriving DecidableEq, Repr

/-- Immutable record of one completed post-intervention analysis. -/
structure StabilityAnalysis where
  interventionId : String
  type : InterventionType
  fromTier : EscalationTier
  toTier : EscalationTier
  timestamp : Nat
  metricsAtStart : Metrics
  metricsAfterInterval : Metrics
  volatilityReduction : ℚ
  riskPropagationControl : ℚ
  treasuryPreservation : ℚ
  successScore : ℚ

/-- StabilityFeedbackEngine.recordState: push the snapshot, then shift
out the oldest entry when the length exceeds MAX_HISTORY = 100. -/
def recordState (history : List GlobalSystemState) (s : GlobalSystemState) :
    List GlobalSystemState :=
  let pushed := history ++ [s]
  if 100 < pushed.length then pushed.tail else pushed

/-- Appending a finished analysis in performAnalysis (the analyses array
is pushed to and never evicted from). -/
def appendAnalysis (analyses : List StabilityAnalysis) (a : StabilityAnalysis) :
    List StabilityAnalysis :=
  analyses ++ [a]

/-- C8 (amended): the snapshot history of the feedback engine never
exceeds 100 entries and the oldest entry is evicted on overflow; every
completed analysis is appended to the analyses history, which grows by
one on every analysis with no eviction. -/
theorem feedback_history_bounds (history : List GlobalSystemState)
    (s : GlobalSystemState) (analyses : List StabilityAnalysis)
    (a : StabilityAnalysis) :
    (history.length ≤ 100 → (recordState history s).length ≤ 100) ∧
    (history.length = 100 → recordState history s = history.tail ++ [s]) ∧
    appendAnalysis analyses a = analyses ++ [a] ∧
    (appendAnalysis analyses a).length = analyses.length + 1 := by
  refine ⟨?_, ?_, rfl, by simp [appendAnalysis]⟩
  · intro h
    simp only [recordState]
    by_cases hlen : 100 < (history ++ [s]).length
    · rw [if_pos hlen, List.length_tail, List.length_append,
        List.length_singleton]
      omega
    · rw [if_neg hlen]
      omega
  · intro h
    cases history with
    | nil => simp at h
    | cons x txs =>
      have h99 : txs.length = 99 := by
        simp only [List.length_cons] at h
        omega
      simp [recordState, h99]

/-- Witness for C8 at a concrete full history: pushing onto 100 retained
snapshots evicts the oldest. -/
theorem feedback_history_bounds_witness :
    recordState (List.replicate 100 stateW) stateW =
      (List.replicate 100 stateW).tail ++ [stateW] :=
  (feedback_history_bounds (List.replicate 100 stateW) stateW [] 
      ⟨"inv_0", .escalation, .STABLE, .ELEVATED, 1, stressedMetrics,
       stressedMetrics, 1, 1, 1, 1⟩).2.1
    (by simp)

theorem appendAnalysis_foldl_length (l : List StabilityAnalysis) :
    ∀ init : List StabilityAnalysis,
      (l.foldl appendAnalysis init).length = init.length + l.length := by
  induction l with
  | nil => intro init; simp
  | cons x xs ih =>
    intro init
    rw [List.foldl_cons, ih (appendAnalysis init x)]
    simp [appendAnalysis]
    omega

/-- Concrete analysis record used by the C8 counterexample. -/
def analysisW : StabilityAnalysis :=
  ⟨"inv_1", .escalation, .STABLE, .ELEVATED, 1, stressedMetrics,
   stressedMetrics, 1, 1, 1, 1⟩

/-- Counterexample for C8: after 101 completed analyses all 101 records
are retained, exceeding the 100-entry cap that bounds the snapshot
history — no bound is enforced on the analyses history. -/
theorem analyses_history_unbounded :
    ((List.replicate 101 analysisW).foldl appendAnalysis []).length = 101 ∧
    ¬ ((List.replicate 101 analysisW).foldl appendAnalysis []).length ≤ 100 := by
  have h := appendAnalysis_foldl_length (List.replicate 101 analysisW) []
  simp only [List.length_replicate, List.length_nil, Nat.zero_add] at h
  exact ⟨h, by rw [h]; decide⟩

/-- Input of one forecaster update tick: wall-clock time, recorded
snapshot history and retained escalation event timestamps. -/
structure ForecastInput where
  now : Nat
  history : List GlobalSystemState
  events : List Nat

/-- ESCALATION_WINDOW_MS: five-minute event window. -/
def escalationWindowMs : Nat := 300000

/-- StressForecastingEngine.cleanEscalationEvents (truncated subtraction
matches the JavaScript comparison for events not in the future). -/
def cleanEscalationEvents (now : Nat) (events : List Nat) : List Nat :=
  events.filter fun t => now - t < escalationWindowMs

/-- Plain numeric read of a core indicator.  Snapshots produced by the
aggregation engine always populate the core indicators, which the
forecaster reads arithmetically. -/
def metricD (m : Metrics) (k : Indicator) : ℚ := (m k).getD 0

/-- Elapsed seconds between the newest and the comparison sample. -/
def deltaTOf (last previous : GlobalSystemState) : ℚ :=
  ((last.timestamp : ℚ) - (previous.timestamp : ℚ)) / 1000

/-- Comparison sample: TREND_WINDOW = 10 steps back, or the oldest sample
when the history is shorter (a negative JavaScript index yields
undefined, which falls back to index 0; truncated natural subtraction
lands on index 0 in exactly those cases). -/
def trendPrevious (history : List GlobalSystemState) (last : GlobalSystemState) :
    GlobalSystemState :=
  history.getD (history.length - 10) last

/-- Treasury stress component: negative treasury velocity scaled against
the reference depletion rate, clamped to at most 1. -/
def treasuryStressOf (last previous : GlobalSystemState) : ℚ :=
  let v := (metricD last.metrics "totalTreasuryReserves" -
    metricD previous.metrics "totalTreasuryReserves") / deltaTOf last previous
  if v < 0 then min 1 (|v| / 500000) else 0

/-- Task-density stress component: positive density velocity scaled
against the reference growth rate, clamped to at most 1. -/
def densityStressOf (last previous : GlobalSystemState) : ℚ :=
  let v := (metricD last.metrics "ongoingTaskDensity" -
    metricD previous.metrics "ongoingTaskDensity") / deltaTOf last previous
  if 0 < v then min 1 (v * 5) else 0

/-- Cooperative-efficiency stress component: a drop scaled against the
reference drop magnitude, clamped to at most 1. -/
def coopStressOf (last previous : GlobalSystemState) : ℚ :=
  let d := metricD last.metrics "cooperativeEfficiencyScores" -
    metricD previous.metrics "cooperativeEfficiencyScores"
  if d < 0 then min 1 (|d| / 20) else 0

/-- Escalation-frequency stress component: retained events scaled against
the reference count of 3, clamped to at most 1. -/
def escalationStressOf (now : Nat) (events : List Nat) : ℚ :=
  min 1 (((cleanEscalationEvents now events).length : ℚ) / 3)

/-- Raw instantaneous stress: weighted sum 0.3, 0.3, 0.2, 0.2 of the four
components. -/
def rawStressOf (now : Nat) (last previous : GlobalSystemState)
    (events : List Nat) : ℚ :=
  treasuryStressOf last previous * 0.3 + densityStressOf last previous * 0.3 +
    coopStressOf last previous * 0.2 + escalationStressOf now events * 0.2

/-- StressForecastingEngine.calculateForecast: no update below 5 samples
or when no positive time elapsed between the newest and the comparison
sample; otherwise the previous forecast is smoothed against the raw
stress, retaining 80 percent. -/
def calculateForecast (now : Nat) (history : List GlobalSystemState)
    (events : List Nat) (prev : ℚ) : ℚ :=
  if history.length < 5 then prev
  else
    match history.getLast? with
    | none => prev
    | some last =>
      if deltaTOf last (trendPrevious history last) ≤ 0 then prev
      else prev * 0.8 + rawStressOf now last (trendPrevious history last) events * 0.2

/-- Fold of forecast updates from the initial forecast 0. -/
def runForecast (inputs : List ForecastInput) : ℚ :=
  inputs.foldl (fun acc i => calculateForecast i.now i.history i.events acc) 0

theorem stress_clamp_bounds (c : Prop) [Decidable c] (e : ℚ) (he : c → 0 ≤ e) :
    0 ≤ (if c then min 1 e else 0) ∧ (if c then min 1 e else 0) ≤ 1 := by
  by_cases h : c
  · rw [if_pos h]
    exact ⟨le_min zero_le_one (he h), min_le_left 1 e⟩
  · rw [if_neg h]
    exact ⟨le_refl 0, by norm_num⟩

theorem treasuryStressOf_bounds (last previous : GlobalSystemState) :
    0 ≤ treasuryStressOf last previous ∧ treasuryStressOf last previous ≤ 1 := by
  simp only [treasuryStressOf]
  exact stress_clamp_bounds _ _ (fun _ => by positivity)

theorem densityStressOf_bounds (last previous : GlobalSystemState) :
    0 ≤ densityStressOf last previous ∧ densityStressOf last previous ≤ 1 := by
  simp only [densityStressOf]
  exact stress_clamp_bounds _ _ (fun h => by linarith)

theorem coopStressOf_bounds (last previous : GlobalSystemState) :
    0 ≤ coopStressOf last previous ∧ coopStressOf last previous ≤ 1 := by
  simp only [coopStressOf]
  exact stress_clamp_bounds _ _ (fun _ => by positivity)

theorem escalationStressOf_bounds (now : Nat) (events : List Nat) :
    0 ≤ escalationStressOf now events ∧ escalationStressOf now events ≤ 1 := by
  unfold escalationStressOf
  exact ⟨le_min zero_le_one (by positivity), min_le_left _ _⟩

theorem rawStressOf_bounds (now : Nat) (last previous : GlobalSystemState)
    (events : List Nat) :
    0 ≤ rawStressOf now last previous events ∧
      rawStressOf now last previous events ≤ 1 := by
  have h1 := treasuryStressOf_bounds last previous
  have h2 := densityStressOf_bounds last previous
  have h3 := coopStressOf_bounds last previous
  have h4 := escalationStressOf_bounds now events
  unfold rawStressOf
  constructor <;> nlinarith [h1.1, h1.2, h2.1, h2.2, h3.1, h3.2, h4.1, h4.2]

theorem calculateForecast_bounds (now : Nat) (history : List GlobalSystemState)
    (events : List Nat) (prev : ℚ) (hp0 : 0 ≤ prev) (hp1 : prev ≤ 1) :
    0 ≤ calculateForecast now history events prev ∧
      calculateForecast now history events prev ≤ 1 := by
  by_cases h5 : history.length < 5
  · simp only [calculateForecast, if_pos h5]
    exact ⟨hp0, hp1⟩
  · rcases hl : history.getLast? with _ | last
    · simp only [calculateForecast, if_neg h5, hl]
      exact ⟨hp0, hp1⟩
    · by_cases hd : deltaTOf last (trendPrevious history last) ≤ 0
      · simp only [calculateForecast, if_neg h5, hl, if_pos hd]
        exact ⟨hp0, hp1⟩
      · simp only [calculateForecast, if_neg h5, hl, if_neg hd]
        have hraw := rawStressOf_bounds now last (trendPrevious history last) events
        constructor <;> nlinarith [hraw.1, hraw.2]

theorem runForecast_fold_bounds (inputs : List ForecastInput) :
    ∀ acc : ℚ, 0 ≤ acc → acc ≤ 1 →
      0 ≤ inputs.foldl
        (fun acc i => calculateForecast i.now i.history i.events acc) acc ∧
      inputs.foldl
        (fun acc i => calculateForecast i.now i.history i.events acc) acc ≤ 1 := by
  induction inputs with
  | nil => intro acc h0 h1; simpa using ⟨h0, h1⟩
  | cons x xs ih =>
    intro acc h0 h1
    rw [List.foldl_cons]
    have hstep := calculateForecast_bounds x.now x.history x.events acc h0 h1
    exact ih _ hstep.1 hstep.2

/-- C7 (amended): no forecast update happens below 5 history samples, nor
when no positive time elapsed between the newest and the comparison
sample; with 5 or more samples and a positive elapsed time, the forecast
becomes 0.8 times the previous forecast plus 0.2 times the raw stress,
whose four clamped components each lie in the unit interval; hence the
published predictive-stress value, which starts at 0 and evolves only
through these updates, always lies in the unit interval. -/
theorem calculateForecast_spec (now : Nat) (history : List GlobalSystemState)
    (events : List Nat) (prev : ℚ) :
    (history.length < 5 → calculateForecast now history events prev = prev) ∧
    (∀ last, 5 ≤ history.length → history.getLast? = some last →
      0 < deltaTOf last (trendPrevious history last) →
      calculateForecast now history events prev =
        prev * 0.8 + rawStressOf now last (trendPrevious history last) events * 0.2) ∧
    (∀ last previous,
      rawStressOf now last previous events =
        treasuryStressOf last previous * 0.3 + densityStressOf last previous * 0.3 +
          coopStressOf last previous * 0.2 + escalationStressOf now events * 0.2 ∧
      0 ≤ rawStressOf now last previous events ∧
      rawStressOf now last previous events ≤ 1) ∧
    (0 ≤ prev → prev ≤ 1 →
      0 ≤ calculateForecast now history events prev ∧
      calculateForecast now history events prev ≤ 1) ∧
    (∀ inputs : List ForecastInput,
      0 ≤ runForecast inputs ∧ runForecast inputs ≤ 1) := by
  refine ⟨?_, ?_, ?_, calculateForecast_bounds now history events prev, ?_⟩
  · intro h
    simp [calculateForecast, h]
  · intro last h5 hlast hpos
    simp only [calculateForecast, if_neg (not_lt.2 h5), hlast,
      if_neg (not_le.2 hpos)]
  · intro last previous
    exact ⟨rfl, (rawStressOf_bounds now last previous events).1,
      (rawStressOf_bounds now last previous events).2⟩
  · intro inputs
    exact runForecast_fold_bounds inputs 0 (le_refl 0) zero_le_one

/-- Modelled from the spec: the forecast update as C7 states it, with no
guard on the elapsed time — whenever 5 or more samples exist the
forecast is smoothed against the raw stress (a zero elapsed time makes
the velocity quotients zero under the rational convention q / 0 = 0). -/
def claimForecast (now : Nat) (history : List GlobalSystemState)
    (events : List Nat) (prev : ℚ) : ℚ :=
  if history.length < 5 then prev
  else
    match history.getLast? with
    | none => prev
    | some last =>
      prev * 0.8 + rawStressOf now last (trendPrevious history last) events * 0.2

/-- Snapshot repeated five times within one millisecond. -/
def flatSnapshot : GlobalSystemState :=
  ⟨"state_flat", 1000, "1.0.0", mkMetrics 5000000 0.2 500 0.3 0.01 95 100 0, []⟩

/-- History of five snapshots sharing one timestamp. -/
def flatHistory : List GlobalSystemState :=
  [flatSnapshot, flatSnapshot, flatSnapshot, flatSnapshot, flatSnapshot]

/-- Counterexample for C7: with 5 samples in the history but zero elapsed
time between the newest and the comparison sample (five snapshots in one
millisecond) and one escalation event in the window, the code performs
no update and keeps the forecast at 1/2, while the claimed update rule
would move it to 31/75. -/
theorem calculateForecast_zero_elapsed_counterexample :
    calculateForecast 1000 flatHistory [900] (1 / 2) = 1 / 2 ∧
    claimForecast 1000 flatHistory [900] (1 / 2) = 31 / 75 ∧
    (1 / 2 : ℚ) ≠ 31 / 75 := by
  have hlast : flatHistory.getLast? = some flatSnapshot := rfl
  have hprev : trendPrevious flatHistory flatSnapshot = flatSnapshot := rfl
  have hlen : flatHistory.length = 5 := rfl
  have hts : flatSnapshot.timestamp = 1000 := rfl
  have hm : flatSnapshot.metrics = mkMetrics 5000000 0.2 500 0.3 0.01 95 100 0 :=
    rfl
  have hclean : cleanEscalationEvents 1000 [900] = [900] := rfl
  refine ⟨?_, ?_, by norm_num⟩
  · simp only [calculateForecast, hlen, hlast, hprev, hts, deltaTOf]
    norm_num
  · simp only [claimForecast, hlen, hlast, hprev]
    norm_num [rawStressOf, treasuryStressOf, densityStressOf, coopStressOf,
      escalationStressOf, deltaTOf, metricD, hts, hm, mkMetrics_treasury,
      mkMetrics_density, mkMetrics_coop, hclean, min_def]

/-- History of five snapshots whose newest sample is four seconds after
the oldest one. -/
def spacedHistory : List GlobalSystemState :=
  [⟨"state_s1", 1000, "1.0.0", mkMetrics 5000000 0.2 500 0.3 0.01 95 100 0, []⟩,
   ⟨"state_s2", 2000, "1.0.0", mkMetrics 5000000 0.2 500 0.3 0.01 95 100 0, []⟩,
   ⟨"state_s3", 3000, "1.0.0", mkMetrics 5000000 0.2 500 0.3 0.01 95 100 0, []⟩,
   ⟨"state_s4", 4000, "1.0.0", mkMetrics 5000000 0.2 500 0.3 0.01 95 100 0, []⟩,
   ⟨"state_s5", 5000, "1.0.0", mkMetrics 5000000 0.2 500 0.3 0.01 95 100 0, []⟩]

/-- Newest sample of the spaced history. -/
def spacedLast : GlobalSystemState :=
  ⟨"state_s5", 5000, "1.0.0", mkMetrics 5000000 0.2 500 0.3 0.01 95 100 0, []⟩

/-- Witness for the amended C7 at a history with positive elapsed time:
the update fires and produces the smoothed forecast. -/
theorem calculateForecast_spec_witness :
    calculateForecast 5000 spacedHistory [] (1 / 2) =
      (1 / 2) * 0.8 +
        rawStressOf 5000 spacedLast (trendPrevious spacedHistory spacedLast) [] * 0.2 :=
  (calculateForecast_spec 5000 spacedHistory [] (1 / 2)).2.1 spacedLast
    (by decide) rfl
    (by
      have h : trendPrevious spacedHistory spacedLast =
          ⟨"state_s1", 1000, "1.0.0",
           mkMetrics 5000000 0.2 500 0.3 0.01 95 100 0, []⟩ := rfl
      rw [h]
      norm_num [deltaTOf, spacedLast])
